import Mathlib

/-!
Verification of the configuration-scoped caching and reconfiguration layer of
the Arize sample-apps repository: environment-override scoping
(`backend/utils/env_manager.py`), fingerprinting and TTL caching
(`backend/utils/session_manager.py`, `backend/main.py`), the flexible
telemetry pipeline manager (`langgraph_fin_agent/flexible_instrumentation.py`)
and the persisted-index loader (`src/llamaindex_app/index_manager.py`).

The ambient process environment (`os.environ`) is modelled as a function from
variable names to optional values; time (`datetime.now()`) is passed explicitly
as a natural number; exceptions are modelled with `Except`.
-/

namespace SampleApps

/-- The ambient process environment, `os.environ`: a partial map from variable
names to values. -/
def Env : Type := String → Option String

/-- Model of `os.environ[k] = v`. -/
def Env.set (e : Env) (k v : String) : Env :=
  fun k' => if k' = k then some v else e k'

/-- Model of `os.environ.pop(k, None)` / `del os.environ[k]`. -/
def Env.pop (e : Env) (k : String) : Env :=
  fun k' => if k' = k then none else e k'

/-! ## EnvironmentManager (arize-chatbot/backend/utils/env_manager.py) -/

/-- The set phase of `EnvironmentManager.temporary_env_vars`: iterate over the
override pairs in order; for each pair whose value is not `None`, record the
current ambient value under `original_values` (appending the key to
`variables_to_restore`) and set the new value.  Returns the updated environment
together with the recorded `(key, original value)` list in iteration order. -/
def setOverrides : List (String × Option String) → Env → Env × List (String × Option String)
  | [], e => (e, [])
  | (_, none) :: rest, e => setOverrides rest e
  | (k, some v) :: rest, e =>
      ((setOverrides rest (Env.set e k v)).1,
       (k, e k) :: (setOverrides rest (Env.set e k v)).2)

/-- The `finally` block of `temporary_env_vars`: for each recorded key in
order, remove it if the original value was `None`, otherwise restore the
original value. -/
def restoreOverrides : List (String × Option String) → Env → Env
  | [], e => e
  | (k, none) :: rest, e => restoreOverrides rest (Env.pop e k)
  | (k, some v) :: rest, e => restoreOverrides rest (Env.set e k v)

/-- Model of `EnvironmentManager.temporary_env_vars(overrides)` running `body` inside
the `with` block.  `body` receives the environment, may mutate it, and may
raise (`Except.error`).  If `overrides` is empty the body runs unchanged;
otherwise the set phase runs, then the body, and the restore phase runs on
every exit path (`try`/`finally`). -/
def temporary_env_vars (ov : List (String × Option String))
    (body : Env → Env × Except ε α) (e : Env) : Env × Except ε α :=
  if ov.isEmpty then body e
  else
    let p := setOverrides ov e
    let q := body p.1
    (restoreOverrides p.2 q.1, q.2)

/-! ## validate_env_overrides (arize-chatbot/backend/utils/env_manager.py) -/

/-- The allow-list of environment variables that may be overridden. -/
def allowed_vars : List String :=
  ["ARIZE_SPACE_ID", "ARIZE_MODEL_ID", "ARIZE_API_KEY", "OPENAI_API_KEY"]

/-- Python `not value.strip()`: true when the string is empty or consists only
of whitespace. -/
def stripEmpty (s : String) : Bool := s.data.all Char.isWhitespace

/-- The per-pair filter inside `validate_env_overrides`. -/
def keepOverride (p : String × Option String) : Option (String × String) :=
  match p.2 with
  | none => none
  | some s =>
      if p.1 ∈ allowed_vars ∧ stripEmpty s = false then some (p.1, s) else none

/-- Model of `validate_env_overrides`: returns `none` for an absent/empty input;
otherwise keeps exactly the pairs whose key is allow-listed and whose value is
not `None` and not empty/whitespace, returning `none` when nothing survives. -/
def validate_env_overrides (ov : List (String × Option String)) :
    Option (List (String × String)) :=
  if ov.isEmpty then none
  else
    let filtered := ov.filterMap keepOverride
    if filtered.isEmpty then none else some filtered

/-- The override list actually handed to `EnvironmentManager.temporary_env_vars`
by the `/api/chat` handler: the validated overrides (all values present). -/
def validatedForScope (ov : List (String × Option String)) :
    List (String × Option String) :=
  ((validate_env_overrides ov).getD []).map fun p => (p.1, some p.2)

/-! ## SHA-256 (`hashlib.sha256(...).hexdigest()`), over byte lists -/

/-- Reduce modulo `2 ^ 32` (32-bit word arithmetic). -/
def w32 (n : Nat) : Nat := n % 4294967296

/-- Rotate a 32-bit word right by `n` positions. -/
def rotr (x n : Nat) : Nat := w32 ((x >>> n) ||| (x <<< (32 - n)))

/-- Bitwise complement within 32 bits. -/
def bnot32 (x : Nat) : Nat := x ^^^ 4294967295

/-- The sixty-four SHA-256 round constants (FIPS 180-4), written in decimal. -/
def sha256K : List Nat :=
  [1116352408, 1899447441, 3049323471, 3921009573, 961987163,
   1508970993, 2453635748, 2870763221, 3624381080, 310598401,
   607225278, 1426881987, 1925078388, 2162078206, 2614888103,
   3248222580, 3835390401, 4022224774, 264347078, 604807628,
   770255983, 1249150122, 1555081692, 1996064986, 2554220882,
   2821834349, 2952996808, 3210313671, 3336571891, 3584528711,
   113926993, 338241895, 666307205, 773529912, 1294757372,
   1396182291, 1695183700, 1986661051, 2177026350, 2456956037,
   2730485921, 2820302411, 3259730800, 3345764771, 3516065817,
   3600352804, 4094571909, 275423344, 430227734, 506948616,
   659060556, 883997877, 958139571, 1322822218, 1537002063,
   1747873779, 1955562222, 2024104815, 2227730452, 2361852424,
   2428436474, 2756734187, 3204031479, 3329325298]

/-- The SHA-256 working state: eight 32-bit words. -/
structure H8 where
  a : Nat
  b : Nat
  c : Nat
  d : Nat
  e : Nat
  f : Nat
  g : Nat
  h : Nat

/-- The SHA-256 initial hash words (FIPS 180-4), written in decimal. -/
def sha256Init : H8 :=
  ⟨1779033703, 3144134277, 1013904242, 2773480762,
   1359893119, 2600822924, 528734635, 1541459225⟩

/-- SHA-256 message padding: append `0x80`, zero bytes, and the 64-bit
big-endian bit length, so the total length is a multiple of 64 bytes. -/
def sha256Pad (msg : List Nat) : List Nat :=
  let l := msg.length * 8
  let zeros := (64 - ((msg.length + 9) % 64)) % 64
  msg ++ [0x80] ++ List.replicate zeros 0 ++
    ((List.range 8).map fun i => l >>> (8 * (7 - i)) % 256)

/-- Split a byte list into 64-byte blocks. -/
def toBlocks (l : List Nat) : List (List Nat) :=
  if l.isEmpty then []
  else l.take 64 :: toBlocks (l.drop 64)
termination_by l.length
decreasing_by
  rename_i h
  simp only [List.length_drop]
  have : 0 < l.length := List.length_pos.mpr (by simpa using h)
  omega

/-- The sixteen initial 32-bit message words of a 64-byte block (big-endian). -/
def blockWords (blk : List Nat) : List Nat :=
  (List.range 16).map fun i =>
    blk.getD (4 * i) 0 * 16777216 + blk.getD (4 * i + 1) 0 * 65536 +
      blk.getD (4 * i + 2) 0 * 256 + blk.getD (4 * i + 3) 0

/-- Extend sixteen message words to sixty-four via the SHA-256 schedule. -/
def extendWords (ws : List Nat) : List Nat :=
  (List.range 48).foldl
    (fun acc _ =>
      let n := acc.length
      let s0 := rotr (acc.getD (n - 15) 0) 7 ^^^ rotr (acc.getD (n - 15) 0) 18 ^^^
        (acc.getD (n - 15) 0 >>> 3)
      let s1 := rotr (acc.getD (n - 2) 0) 17 ^^^ rotr (acc.getD (n - 2) 0) 19 ^^^
        (acc.getD (n - 2) 0 >>> 10)
      acc ++ [w32 (acc.getD (n - 16) 0 + s0 + acc.getD (n - 7) 0 + s1)])
    ws

/-- One SHA-256 compression round. -/
def sha256Round (st : H8) (kw : Nat × Nat) : H8 :=
  let s1 := rotr st.e 6 ^^^ rotr st.e 11 ^^^ rotr st.e 25
  let ch := (st.e &&& st.f) ^^^ (bnot32 st.e &&& st.g)
  let t1 := w32 (st.h + s1 + ch + kw.1 + kw.2)
  let s0 := rotr st.a 2 ^^^ rotr st.a 13 ^^^ rotr st.a 22
  let maj := (st.a &&& st.b) ^^^ (st.a &&& st.c) ^^^ (st.b &&& st.c)
  let t2 := w32 (s0 + maj)
  ⟨w32 (t1 + t2), st.a, st.b, st.c, w32 (st.d + t1), st.e, st.f, st.g⟩

/-- Compress one 64-byte block into the running hash. -/
def sha256Compress (hs : H8) (blk : List Nat) : H8 :=
  let ws := extendWords (blockWords blk)
  let fin := (sha256K.zip ws).foldl sha256Round hs
  ⟨w32 (hs.a + fin.a), w32 (hs.b + fin.b), w32 (hs.c + fin.c), w32 (hs.d + fin.d),
   w32 (hs.e + fin.e), w32 (hs.f + fin.f), w32 (hs.g + fin.g), w32 (hs.h + fin.h)⟩

/-- A hexadecimal digit character. -/
def hexChar (n : Nat) : Char :=
  if n < 10 then Char.ofNat (48 + n) else Char.ofNat (87 + n)

/-- The eight lowercase hexadecimal characters of a 32-bit word. -/
def wordHexChars (wd : Nat) : List Char :=
  (List.range 8).map fun i => hexChar (wd >>> (4 * (7 - i)) % 16)

/-- Model of `hashlib.sha256(bytes).hexdigest()`, as a character list. -/
def sha256hexChars (msg : List Nat) : List Char :=
  let hs := (toBlocks (sha256Pad msg)).foldl sha256Compress sha256Init
  ([hs.a, hs.b, hs.c, hs.d, hs.e, hs.f, hs.g, hs.h].map wordHexChars).flatten

/-- UTF-8 encoding of a string (`str.encode()`), as a byte list. -/
def utf8Bytes (s : String) : List Nat :=
  (s.data.map fun c =>
    let n := c.toNat
    if n < 128 then [n]
    else if n < 2048 then [192 + n / 64, 128 + n % 64]
    else if n < 65536 then [224 + n / 4096, 128 + n / 64 % 64, 128 + n % 64]
    else [240 + n / 262144, 128 + n / 4096 % 64, 128 + n / 64 % 64, 128 + n % 64]).flatten

/-! ## JSON serialization (`json.dumps` on a string-valued dict) -/

/-- Four uppercase-free hex digits of a code unit, for `\uXXXX` escapes. -/
def u4hex (n : Nat) : String :=
  String.mk ((List.range 4).map fun i => hexChar (n >>> (4 * (3 - i)) % 16))

/-- Model of `json.dumps` escaping of a single character (default `ensure_ascii=True`). -/
def jsonEscapeChar (c : Char) : String :=
  if c = '"' then "\\\""
  else if c = '\\' then "\\\\"
  else if c = '\n' then "\\n"
  else if c = '\t' then "\\t"
  else if c = '\r' then "\\r"
  else if c.toNat = 8 then "\\b"
  else if c.toNat = 12 then "\\f"
  else if c.toNat < 32 then "\\u" ++ u4hex c.toNat
  else if c.toNat < 127 then String.singleton c
  else if c.toNat < 65536 then "\\u" ++ u4hex c.toNat
  else
    "\\u" ++ u4hex (55296 + (c.toNat - 65536) / 1024) ++
      "\\u" ++ u4hex (56320 + (c.toNat - 65536) % 1024)

/-- A JSON string literal. -/
def jsonStr (s : String) : String :=
  "\"" ++ String.join (s.data.map jsonEscapeChar) ++ "\""

/-- Model of `json.dumps` of an association list taken as an object, in list order
(the caller sorts; `sort_keys=True` is then the identity). -/
def jsonDumpsPairs (l : List (String × String)) : String :=
  "\x7b" ++
    String.intercalate ", " (l.map fun p => jsonStr p.1 ++ ": " ++ jsonStr p.2) ++
    "\x7d"

/-! ## SessionManager (langgraph-fin-agent/backend/utils/session_manager.py) -/

/-- Python's lexicographic order on `(str, str)` tuples, used by
`sorted(env_vars.items())`. -/
def pairLe (p q : String × String) : Prop :=
  p.1 < q.1 ∨ (p.1 = q.1 ∧ p.2 ≤ q.2)

instance : DecidableRel pairLe := fun p q => by
  unfold pairLe; infer_instance

/-- Model of `sorted(env_vars.items())`. -/
def sortedItems (l : List (String × String)) : List (String × String) :=
  List.insertionSort pairLe l

/-- Model of `SessionManager._generate_cache_key`: `"default"` for a `None` or empty
configuration; otherwise the first 16 hex characters of the SHA-256 of the
JSON serialization of the sorted key/value pairs. -/
def generate_cache_key (env_vars : Option (List (String × String))) : String :=
  match env_vars with
  | none => "default"
  | some l =>
      if l.isEmpty then "default"
      else String.mk ((sha256hexChars (utf8Bytes (jsonDumpsPairs (sortedItems l)))).take 16)

/-- The cache state of a `SessionManager`: the `_cache` map from cache keys to
(components, timestamp) entries, and the TTL `_cache_ttl`. -/
structure SessionState (α : Type) where
  cache : String → Option (α × Nat)
  ttl : Nat

/-- Model of `SessionManager.get_cached_components`: look up the entry for the
configuration's key; return it if younger than the TTL, deleting it and
returning nothing if it has expired. -/
def get_cached_components (s : SessionState α)
    (env_vars : Option (List (String × String))) (now : Nat) :
    Option α × SessionState α :=
  let key := generate_cache_key env_vars
  match s.cache key with
  | some (comps, ts) =>
      if now - ts < s.ttl then (some comps, s)
      else (none, { s with cache := fun k => if k = key then none else s.cache k })
  | none => (none, s)

/-- Model of `SessionManager._cleanup_expired_cache`: drop every entry at least as old
as the TTL. -/
def cleanup_expired_cache (s : SessionState α) (now : Nat) : SessionState α :=
  { s with
    cache := fun k =>
      match s.cache k with
      | some (c, ts) => if s.ttl ≤ now - ts then none else some (c, ts)
      | none => none }

/-- Model of `SessionManager.cache_components`: store the entry with the current
timestamp, then clean up expired entries. -/
def cache_components (s : SessionState α)
    (env_vars : Option (List (String × String))) (comps : α) (now : Nat) :
    SessionState α :=
  let key := generate_cache_key env_vars
  cleanup_expired_cache
    { s with cache := fun k => if k = key then some (comps, now) else s.cache k } now

/-- Model of `fastapi.HTTPException`, as raised by `initialize_app` on failure. -/
structure HTTPError where
  status_code : Nat
  detail : String
deriving DecidableEq

/-- Models `initialize_app` from arize-chatbot/backend/main.py, backed by a
`SessionManager`: return cached components when present; otherwise run the
component builder, cache the result on success, and on failure raise
`HTTPException(500, ...)` without caching.  `builder` is invoked with the
number of builder invocations so far (`count`), which the result threads
through so invocation counts are observable. -/
def init_app (s : SessionState α) (count : Nat)
    (env_overrides : Option (List (String × String)))
    (builder : Nat → Except String α) (now : Nat) :
    Except HTTPError α × SessionState α × Nat :=
  match get_cached_components s env_overrides now with
  | (some comps, s') => (Except.ok comps, s', count)
  | (none, s') =>
      match builder count with
      | Except.ok comps =>
          (Except.ok comps, cache_components s' env_overrides comps now, count + 1)
      | Except.error e =>
          (Except.error ⟨500, "Initialization failed: " ++ e⟩, s', count + 1)

/-! ## FlexibleInstrumentation
(langgraph-fin-agent/langgraph_fin_agent/flexible_instrumentation.py)

Exporters, processors, providers and instrumentors are modelled as identifiers
allocated from a counter; side effects are recorded in an event log. -/

/-- Model of `TracerConfig` from flexible_instrumentation.py. -/
structure TracerConfig where
  space_id : Option String := none
  api_key : Option String := none
  model_id : String := "default_model"
  endpoint : String := "https://otlp.arize.com/v1"
  additional_attributes : List (String × String) := []
  use_env_headers : Bool := false

/-- Python truthiness of an optional string (`not config.space_id`). -/
def truthy : Option String → Bool
  | none => false
  | some s => !s.isEmpty

/-- A config passing `configure`'s credential check. -/
def validCreds (cfg : TracerConfig) : Bool :=
  truthy cfg.space_id && truthy cfg.api_key

/-- Observable side effects of the instrumentation manager. -/
inductive IEvent where
  | uninstrument (id : Nat)
  | procShutdown (id : Nat)
  | envDelete (key : String)
  | envSet (key : String)
  | exporterNew (id : Nat)
  | processorNew (id : Nat)
  | providerNew (id : Nat)
  | instrument (id : Nat)
  | warnReconfigure
deriving DecidableEq

/-- The mutable state of a `FlexibleInstrumentation` instance, together with
the ambient environment and an id allocator for fresh pipeline objects. -/
structure InstrState where
  tracer_provider : Option Nat := none
  span_processors : List Nat := []
  langchain_instrumentor : Option Nat := none
  is_configured : Bool := false
  env_var_key : Option String := none
  env : Env
  nextId : Nat := 0

/-- The header environment variable name used by `configure`. -/
def otelHeadersKey : String := "OTEL_EXPORTER_OTLP_TRACES_HEADERS"

/-- Model of `FlexibleInstrumentation.shutdown`: when configured, uninstrument, shut
down every span processor, delete the recorded environment variable if
present, and clear all references; a no-op otherwise. -/
def FI.shutdown (s : InstrState) : InstrState × List IEvent :=
  if s.is_configured then
    let ev1 := match s.langchain_instrumentor with
      | some i => [IEvent.uninstrument i]
      | none => []
    let ev2 := s.span_processors.map IEvent.procShutdown
    let env' := match s.env_var_key with
      | some k => if !k.isEmpty && (s.env k).isSome then Env.pop s.env k else s.env
      | none => s.env
    let ev3 := match s.env_var_key with
      | some k => if !k.isEmpty && (s.env k).isSome then [IEvent.envDelete k] else []
      | none => []
    ({ tracer_provider := none, span_processors := [], langchain_instrumentor := none,
       is_configured := false, env_var_key := none, env := env', nextId := s.nextId },
     ev1 ++ ev2 ++ ev3)
  else (s, [])

/-- Model of `FlexibleInstrumentation.configure`: tear down any existing configuration,
validate credentials (raising `ValueError` otherwise — note the teardown has
already happened), set up headers (via the environment or directly), then
build exporter, processor and provider, append the processor, and instrument.
Returns the result (`Except`), the new state and the event log. -/
def FI.configure (cfg : TracerConfig) (s : InstrState) :
    Except String Nat × InstrState × List IEvent :=
  let sp := if s.is_configured then FI.shutdown s else (s, [])
  let s1 := sp.1
  let ev1 := sp.2
  if !validCreds cfg then
    (Except.error "ARIZE_SPACE_ID and ARIZE_API_KEY must be provided in configuration.",
     s1, ev1)
  else
    let eid := s1.nextId
    let prid := s1.nextId + 1
    let pvid := s1.nextId + 2
    let iid := s1.nextId + 3
    let headersStr :=
      "space_id=" ++ cfg.space_id.getD "" ++ ",api_key=" ++ cfg.api_key.getD ""
    let env2 := if cfg.use_env_headers then Env.set s1.env otelHeadersKey headersStr
                else s1.env
    let ev2 := if cfg.use_env_headers then [IEvent.envSet otelHeadersKey] else []
    let s2 : InstrState :=
      { tracer_provider := some pvid,
        span_processors := s1.span_processors ++ [prid],
        langchain_instrumentor := some iid,
        is_configured := true,
        env_var_key := if cfg.use_env_headers then some otelHeadersKey else s1.env_var_key,
        env := env2,
        nextId := s1.nextId + 4 }
    (Except.ok pvid, s2,
     ev1 ++ ev2 ++
       [IEvent.exporterNew eid, IEvent.processorNew prid,
        IEvent.providerNew pvid, IEvent.instrument iid])

/-- Model of `FlexibleInstrumentation.reconfigure`, which is `configure`. -/
def FI.reconfigure (cfg : TracerConfig) (s : InstrState) :
    Except String Nat × InstrState × List IEvent :=
  FI.configure cfg s

/-- A fresh `FlexibleInstrumentation` instance over an ambient environment. -/
def FI.init (e : Env) : InstrState :=
  { env := e }

/-- Folding a sequence of `configure` calls, keeping the state. -/
def FI.runConfigs (cfgs : List TracerConfig) (s : InstrState) : InstrState :=
  cfgs.foldl (fun st c => (FI.configure c st).2.1) s

/-- The outcome of `temporary_config`: the body's value, or the exception that
escaped (`configure`'s `ValueError`, or the body's own exception). -/
inductive TCResult (ε α : Type) where
  | ok (a : α)
  | configError (msg : String)
  | bodyError (e : ε)
deriving DecidableEq

/-- Model of `FlexibleInstrumentation.temporary_config`: save whether a configuration
was active, `configure`, yield the provider to `body`, and in the `finally`
block always call `shutdown`, warning (without restoring) when a configuration
had been active. -/
def FI.temporary_config (cfg : TracerConfig) (body : Nat → Except ε α)
    (s : InstrState) : TCResult ε α × InstrState × List IEvent :=
  let was_configured := s.is_configured
  let old_provider := s.tracer_provider
  let c := FI.configure cfg s
  let warn := if was_configured && old_provider.isSome
              then [IEvent.warnReconfigure] else []
  match c.1 with
  | Except.error msg =>
      let sp := FI.shutdown c.2.1
      (TCResult.configError msg, sp.1, c.2.2 ++ sp.2 ++ warn)
  | Except.ok pvid =>
      let br := body pvid
      let sp := FI.shutdown c.2.1
      (match br with
       | Except.ok a => TCResult.ok a
       | Except.error e => TCResult.bodyError e, sp.1, c.2.2 ++ sp.2 ++ warn)

/-- The structural invariant of a `FlexibleInstrumentation` instance: when
unconfigured all references are cleared; when configured there is exactly one
span processor and a provider. -/
def FI.Inv (s : InstrState) : Prop :=
  (s.is_configured = false →
    s.tracer_provider = none ∧ s.span_processors = [] ∧
      s.langchain_instrumentor = none ∧ s.env_var_key = none) ∧
  (s.is_configured = true →
    s.tracer_provider.isSome = true ∧ s.span_processors.length = 1)

/-! ## IndexManager (mustang_manual_bot/src/llamaindex_app/index_manager.py) -/

/-- Metadata of a file on disk. -/
structure FileInfo where
  size : Nat
  mtime : Nat
deriving DecidableEq

/-- The file-system state seen by `IndexManager`: whether the storage
directory exists, the files inside it (by name), and the files inside the
data directory (by name). -/
structure FS where
  storageDirExists : Bool
  storageFile : String → Option FileInfo
  dataFile : String → Option FileInfo

/-- The fixed list of owner-manual PDF file names. -/
def pdf_filenames : List String :=
  ["2016-Mustang-Owners-Manual-version-2_om_EN-US_11_2015.pdf",
   "2017-Ford-Mustang-Owners-Manual-version-2_om_EN-US_EN-CA_12_2016.pdf",
   "2018-Ford-Mustang-Owners-Manual-version-3_om_EN-US_03_2018.pdf",
   "2019-Ford-Mustang-Owners-Manual-version-2_om_EN-US_01_2019.pdf",
   "2020-Ford-Mustang-Owners-Manual-version-2_om_EN-US_12_2019.pdf",
   "2021-Ford-Mustang-Owners-Manual-version-2_om_EN-US_03_2021.pdf",
   "2022-Ford-Mustang-Owners-Manual-version-1_om_EN-US_11_2021.pdf",
   "2023_Ford_Mustang_Owners_Manual_version_1_om_EN-US.pdf",
   "2024_Ford_Mustang_Owners_Manual_version_1_om_EN-US.pdf",
   "2025_MustangS650_OM_ENG_version1.pdf"]

/-- The required persisted index files. -/
def required_files : List String :=
  ["default__vector_store.json", "index_store.json", "docstore.json"]

/-- Model of `IndexManager._get_pdf_files`: the fixed PDF names that exist on disk. -/
def get_pdf_files (fs : FS) : List String :=
  pdf_filenames.filter fun f => (fs.dataFile f).isSome

/-- Model of `IndexManager._index_exists_and_valid`: storage directory present and
every required file present with nonzero size. -/
def index_exists_and_valid (fs : FS) : Bool :=
  fs.storageDirExists &&
    required_files.all fun f =>
      match fs.storageFile f with
      | none => false
      | some info => info.size != 0

/-- The running minimum of the modification times of the required index files
that exist (`oldest_index_time` in `_should_rebuild_index`). -/
def oldest_index_time (fs : FS) : Option Nat :=
  required_files.foldl
    (fun acc f =>
      match fs.storageFile f with
      | some info =>
          match acc with
          | none => some info.mtime
          | some t => if info.mtime < t then some info.mtime else some t
      | none => acc)
    none

/-- Model of `IndexManager._should_rebuild_index`: force rebuild, invalid index, or
some existing source PDF strictly newer than the oldest index file. -/
def should_rebuild_index (fs : FS) (force_rebuild : Bool) : Bool :=
  if force_rebuild then true
  else if !index_exists_and_valid fs then true
  else
    match oldest_index_time fs with
    | none => true
    | some t =>
        (get_pdf_files fs).any fun p =>
          match fs.dataFile p with
          | some info => decide (t < info.mtime)
          | none => false

/-- Modification times of the required index files that exist. -/
def indexMtimes (fs : FS) : List Nat :=
  required_files.filterMap fun f => (fs.storageFile f).map FileInfo.mtime

/-- Modification times of the source PDFs that exist. -/
def sourceMtimes (fs : FS) : List Nat :=
  pdf_filenames.filterMap fun f => (fs.dataFile f).map FileInfo.mtime

/-- The rebuild decision exactly as the specification words it: (1) force
rebuild; else (2) persisted index missing, incomplete or containing a
zero-size required file; else (3) some source document strictly newer than
the oldest modification time among required index files; else (4) no
rebuild (attempt load). -/
def rebuildDecisionSpec (fs : FS) (force : Bool) : Bool :=
  if force then true
  else if !fs.storageDirExists ||
      (required_files.any fun f =>
        match fs.storageFile f with
        | none => true
        | some info => info.size == 0) then true
  else
    match (indexMtimes fs).min? with
    | none => true
    | some t => (sourceMtimes fs).any fun m => t < m

/-- The outcome of `load_or_create_index`: an index obtained by loading the
persisted files, or one created afresh. -/
inductive LoadOutcome (ι : Type) where
  | loaded (i : ι)
  | created (i : ι)
deriving DecidableEq

/-- Model of `IndexManager.load_or_create_index` (one attempt, without the retry
wrapper): when no rebuild is needed, try to load the persisted index, falling
back to creation on failure; otherwise create.  The outcomes of the external
load and create operations are passed as parameters. -/
def load_or_create_index (fs : FS) (force : Bool) (load : Except String ι)
    (create : ι) : LoadOutcome ι :=
  if !should_rebuild_index fs force then
    match load with
    | Except.ok i => LoadOutcome.loaded i
    | Except.error _ => LoadOutcome.created create
  else LoadOutcome.created create

/-- Observable steps of `_create_new_index`. -/
inductive IdxEvent where
  | mkdirStorage
  | clearFiles
  | readDocs (files : List String)
  | buildIndex
  | persist
deriving DecidableEq

/-- Model of `IndexManager._create_new_index`: ensure the storage directory exists
(without deleting any existing persisted files), collect the source PDFs,
raise `ValueError` when none are found, read the documents, build the index
in memory (outcome passed as the `build` parameter) and, only after the build
succeeds, persist to the storage path and return.  The `IdxEvent.clearFiles`
step exists in the event alphabet but is never emitted by this code. -/
def create_new_index (fs : FS) (build : Except String ι) :
    Except String ι × FS × List IdxEvent :=
  let fs1 := if !fs.storageDirExists then { fs with storageDirExists := true } else fs
  let ev1 := if !fs.storageDirExists then [IdxEvent.mkdirStorage] else []
  let pdfs := get_pdf_files fs1
  if pdfs.isEmpty then
    (Except.error "No PDF files found to index", fs1, ev1)
  else
    match build with
    | Except.error e =>
        (Except.error e, fs1, ev1 ++ [IdxEvent.readDocs pdfs, IdxEvent.buildIndex])
    | Except.ok i =>
        (Except.ok i, fs1,
         ev1 ++ [IdxEvent.readDocs pdfs, IdxEvent.buildIndex, IdxEvent.persist])

/-! # Lemmas -/

theorem restoreOverrides_not_mem (recs : List (String × Option String)) (e : Env)
    (k : String) (h : k ∉ recs.map Prod.fst) :
    restoreOverrides recs e k = e k := by
  induction recs generalizing e with
  | nil => rfl
  | cons p rest ih =>
      obtain ⟨k', w⟩ := p
      simp only [List.map_cons, List.mem_cons, not_or] at h
      cases w with
      | none =>
          simp only [restoreOverrides]
          rw [ih _ h.2]
          simp [Env.pop, h.1]
      | some v =>
          simp only [restoreOverrides]
          rw [ih _ h.2]
          simp [Env.set, h.1]

theorem setOverrides_env_not_mem (ov : List (String × Option String)) (e : Env)
    (k : String) (h : k ∉ ov.map Prod.fst) :
    (setOverrides ov e).1 k = e k := by
  induction ov generalizing e with
  | nil => rfl
  | cons p rest ih =>
      obtain ⟨k', w⟩ := p
      simp only [List.map_cons, List.mem_cons, not_or] at h
      cases w with
      | none =>
          simp only [setOverrides]
          exact ih _ h.2
      | some v =>
          simp only [setOverrides]
          rw [ih _ h.2]
          simp [Env.set, h.1]

theorem setOverrides_recs_keys (ov : List (String × Option String)) (e : Env)
    (k : String) (h : k ∈ (setOverrides ov e).2.map Prod.fst) :
    k ∈ ov.map Prod.fst := by
  induction ov generalizing e with
  | nil => simp [setOverrides] at h
  | cons p rest ih =>
      obtain ⟨k', w⟩ := p
      cases w with
      | none =>
          simp only [setOverrides] at h
          simp only [List.map_cons, List.mem_cons]
          exact Or.inr (ih _ h)
      | some v =>
          simp only [setOverrides, List.map_cons, List.mem_cons] at h
          simp only [List.map_cons, List.mem_cons]
          rcases h with h | h
          · exact Or.inl h
          · exact Or.inr (ih _ h)

theorem restore_setOverrides_eq (ov : List (String × Option String))
    (hnd : (ov.map Prod.fst).Nodup) (k v : String) (hmem : (k, some v) ∈ ov) :
    ∀ (e e2 : Env), restoreOverrides (setOverrides ov e).2 e2 k = e k := by
  induction ov with
  | nil => cases hmem
  | cons p rest ih =>
      obtain ⟨k', w⟩ := p
      simp only [List.map_cons, List.nodup_cons] at hnd
      intro e e2
      cases w with
      | none =>
          rcases List.mem_cons.mp hmem with heq | hrest
          · exact absurd heq (by simp)
          · simp only [setOverrides]
            exact ih hnd.2 hrest e e2
      | some v' =>
          simp only [setOverrides]
          rcases List.mem_cons.mp hmem with heq | hrest
          · have hk : k = k' := congrArg Prod.fst heq
            subst hk
            have hknotin : k ∉ (setOverrides rest (Env.set e k v')).2.map Prod.fst :=
              fun hc => hnd.1 (setOverrides_recs_keys rest (Env.set e k v') k hc)
            cases he : e k with
            | none =>
                simp only [restoreOverrides]
                rw [restoreOverrides_not_mem _ _ _ hknotin]
                simp [Env.pop]
            | some u =>
                simp only [restoreOverrides]
                rw [restoreOverrides_not_mem _ _ _ hknotin]
                simp [Env.set]
          · have hkrest : k ∈ rest.map Prod.fst :=
              List.mem_map_of_mem Prod.fst hrest
            have hkk' : k ≠ k' := fun h => hnd.1 (h ▸ hkrest)
            cases he : e k' with
            | none =>
                simp only [restoreOverrides]
                rw [ih hnd.2 hrest (Env.set e k' v') (Env.pop e2 k')]
                simp [Env.set, hkk']
            | some u =>
                simp only [restoreOverrides]
                rw [ih hnd.2 hrest (Env.set e k' v') (Env.set e2 k' u)]
                simp [Env.set, hkk']

theorem keepOverride_eq_some (p : String × Option String) (k s : String) :
    keepOverride p = some (k, s) ↔
      p = (k, some s) ∧ k ∈ allowed_vars ∧ stripEmpty s = false := by
  obtain ⟨a, b⟩ := p
  cases b with
  | none => simp [keepOverride]
  | some t =>
      simp only [keepOverride]
      by_cases hc : a ∈ allowed_vars ∧ stripEmpty t = false
      · rw [if_pos hc]
        simp only [Option.some.injEq, Prod.mk.injEq]
        constructor
        · rintro ⟨rfl, rfl⟩
          exact ⟨⟨rfl, rfl⟩, hc.1, hc.2⟩
        · rintro ⟨⟨rfl, ht⟩, _⟩
          cases ht
          exact ⟨rfl, rfl⟩
      · rw [if_neg hc]
        constructor
        · intro h
          exact Option.noConfusion h
        · rintro ⟨heq, hall, hblank⟩
          injection heq with h1 h2
          subst h1
          injection h2 with h3
          subst h3
          exact absurd ⟨hall, hblank⟩ hc

theorem mem_validate_iff (ov : List (String × Option String)) (k s : String) :
    (k, s) ∈ (validate_env_overrides ov).getD [] ↔
      ((k, some s) ∈ ov ∧ k ∈ allowed_vars ∧ stripEmpty s = false) := by
  by_cases h1 : ov.isEmpty
  · rw [List.isEmpty_iff] at h1
    subst h1
    simp [validate_env_overrides]
  · have h1' : ov.isEmpty = false := by simpa using h1
    by_cases h2 : (ov.filterMap keepOverride).isEmpty
    · have hval : validate_env_overrides ov = none := by
        simp [validate_env_overrides, h1', h2]
      rw [hval]
      simp only [Option.getD_none, List.not_mem_nil, false_iff]
      rintro ⟨hmem, hall, hblank⟩
      have hin : (k, s) ∈ ov.filterMap keepOverride :=
        List.mem_filterMap.mpr
          ⟨(k, some s), hmem, (keepOverride_eq_some _ _ _).mpr ⟨rfl, hall, hblank⟩⟩
      rw [List.isEmpty_iff] at h2
      rw [h2] at hin
      cases hin
    · have hval : validate_env_overrides ov = some (ov.filterMap keepOverride) := by
        simp [validate_env_overrides, h1', h2]
      rw [hval]
      simp only [Option.getD_some]
      rw [List.mem_filterMap]
      constructor
      · rintro ⟨p, hp, hkeep⟩
        obtain ⟨hpe, h⟩ := (keepOverride_eq_some _ _ _).mp hkeep
        subst hpe
        exact ⟨hp, h⟩
      · rintro ⟨hmem, hall, hblank⟩
        exact ⟨(k, some s), hmem, (keepOverride_eq_some _ _ _).mpr ⟨rfl, hall, hblank⟩⟩

instance : IsTotal (String × String) pairLe :=
  ⟨fun p q => by
    rcases lt_trichotomy p.1 q.1 with h | h | h
    · exact Or.inl (Or.inl h)
    · rcases le_total p.2 q.2 with h2 | h2
      · exact Or.inl (Or.inr ⟨h, h2⟩)
      · exact Or.inr (Or.inr ⟨h.symm, h2⟩)
    · exact Or.inr (Or.inl h)⟩

instance : IsTrans (String × String) pairLe :=
  ⟨fun p q r hpq hqr => by
    rcases hpq with h1 | ⟨h1, h1'⟩
    · rcases hqr with h2 | ⟨h2, _⟩
      · exact Or.inl (h1.trans h2)
      · exact Or.inl (h2 ▸ h1)
    · rcases hqr with h2 | ⟨h2, h2'⟩
      · exact Or.inl (h1 ▸ h2)
      · exact Or.inr ⟨h1.trans h2, h1'.trans h2'⟩⟩

instance : IsAntisymm (String × String) pairLe :=
  ⟨fun p q hpq hqp => by
    obtain ⟨a, b⟩ := p
    obtain ⟨c, d⟩ := q
    dsimp only [pairLe] at hpq hqp
    rcases hpq with h1 | ⟨h1, h1'⟩
    · rcases hqp with h2 | ⟨h2, _⟩
      · exact absurd h2 (lt_asymm h1)
      · exact absurd (h2 ▸ h1) (lt_irrefl c)
    · rcases hqp with h2 | ⟨h2, h2'⟩
      · exact absurd (h1 ▸ h2) (lt_irrefl c)
      · cases h1
        rw [le_antisymm h1' h2']⟩

theorem sortedItems_perm_eq (A B : List (String × String)) (h : A.Perm B) :
    sortedItems A = sortedItems B :=
  List.eq_of_perm_of_sorted
    ((List.perm_insertionSort pairLe A).trans
      (h.trans (List.perm_insertionSort pairLe B).symm))
    (List.sorted_insertionSort pairLe A) (List.sorted_insertionSort pairLe B)

theorem wordHexChars_length (wd : Nat) : (wordHexChars wd).length = 8 := by
  simp [wordHexChars]

theorem sha256hexChars_length (msg : List Nat) : (sha256hexChars msg).length = 64 := by
  simp [sha256hexChars, wordHexChars_length]

theorem get_cached_miss {α : Type} (s : SessionState α)
    (ov : Option (List (String × String))) (now : Nat)
    (h : s.cache (generate_cache_key ov) = none) :
    get_cached_components s ov now = (none, s) := by
  simp only [get_cached_components, h]

theorem get_cached_hit {α : Type} (s : SessionState α)
    (ov : Option (List (String × String))) (now : Nat) (comps : α) (ts : Nat)
    (h : s.cache (generate_cache_key ov) = some (comps, ts))
    (hf : now - ts < s.ttl) :
    get_cached_components s ov now = (some comps, s) := by
  simp only [get_cached_components, h, if_pos hf]

theorem get_cached_expired_eq {α : Type} (s : SessionState α)
    (ov : Option (List (String × String))) (now : Nat) (comps : α) (ts : Nat)
    (h : s.cache (generate_cache_key ov) = some (comps, ts))
    (hexp : s.ttl ≤ now - ts) :
    get_cached_components s ov now =
      (none,
        { s with cache := fun k =>
            if k = generate_cache_key ov then none else s.cache k }) := by
  simp only [get_cached_components, h, if_neg (not_lt.mpr hexp)]

theorem cache_components_cache_key {α : Type} (s : SessionState α)
    (ov : Option (List (String × String))) (comps : α) (now : Nat)
    (httl : 0 < s.ttl) :
    (cache_components s ov comps now).cache (generate_cache_key ov) =
      some (comps, now) := by
  have hne : ¬ s.ttl ≤ now - now := by omega
  have hne0 : ¬ s.ttl = 0 := by omega
  simp [cache_components, cleanup_expired_cache, hne, hne0]

theorem init_app_miss_ok {α : Type} (s : SessionState α) (c : Nat)
    (ov : Option (List (String × String))) (builder : Nat → Except String α)
    (now : Nat) (comps : α)
    (hmiss : s.cache (generate_cache_key ov) = none)
    (hb : builder c = Except.ok comps) :
    init_app s c ov builder now =
      (Except.ok comps, cache_components s ov comps now, c + 1) := by
  simp only [init_app, get_cached_miss s ov now hmiss, hb]

theorem init_app_hit {α : Type} (s : SessionState α) (c : Nat)
    (ov : Option (List (String × String))) (builder : Nat → Except String α)
    (now : Nat) (comps : α) (ts : Nat)
    (h : s.cache (generate_cache_key ov) = some (comps, ts))
    (hf : now - ts < s.ttl) :
    init_app s c ov builder now = (Except.ok comps, s, c) := by
  simp only [init_app, get_cached_hit s ov now comps ts h hf]

theorem FI_Inv_init (e : Env) : FI.Inv (FI.init e) :=
  ⟨fun _ => ⟨rfl, rfl, rfl, rfl⟩, fun h => by simp [FI.init] at h⟩

theorem FI_shutdown_clears (s : InstrState) (hInv : FI.Inv s) :
    (FI.shutdown s).1.is_configured = false ∧
    (FI.shutdown s).1.tracer_provider = none ∧
    (FI.shutdown s).1.span_processors = [] ∧
    (FI.shutdown s).1.langchain_instrumentor = none ∧
    (FI.shutdown s).1.env_var_key = none := by
  cases h : s.is_configured with
  | true => simp [FI.shutdown, h]
  | false =>
      obtain ⟨ha, hb, hc, hd⟩ := hInv.1 h
      simp [FI.shutdown, h, ha, hb, hc, hd]

theorem FI_Inv_shutdown (s : InstrState) (hInv : FI.Inv s) :
    FI.Inv (FI.shutdown s).1 := by
  obtain ⟨h1, h2, h3, h4, h5⟩ := FI_shutdown_clears s hInv
  refine ⟨fun _ => ⟨h2, h3, h4, h5⟩, fun h => ?_⟩
  rw [h1] at h
  cases h

theorem FI_shutdown_nextId (s : InstrState) :
    (FI.shutdown s).1.nextId = s.nextId := by
  cases h : s.is_configured <;> simp [FI.shutdown, h]

theorem FI_configure_pre_processors (s : InstrState) (hInv : FI.Inv s) :
    (if s.is_configured then FI.shutdown s else (s, [])).1.span_processors = [] := by
  cases h : s.is_configured with
  | true =>
      simp only [h, if_pos]
      exact (FI_shutdown_clears s hInv).2.2.1
  | false =>
      simp only [h, Bool.false_eq_true, if_false]
      exact (hInv.1 h).2.1

theorem FI_configure_ok (s : InstrState) (cfg : TracerConfig)
    (hInv : FI.Inv s) (hv : validCreds cfg = true) :
    (FI.configure cfg s).2.1.is_configured = true ∧
    (FI.configure cfg s).2.1.span_processors.length = 1 ∧
    (FI.configure cfg s).2.1.tracer_provider.isSome = true := by
  have hpre := FI_configure_pre_processors s hInv
  simp [FI.configure, hv, hpre]

theorem FI_Inv_configure (s : InstrState) (cfg : TracerConfig)
    (hInv : FI.Inv s) : FI.Inv (FI.configure cfg s).2.1 := by
  cases hv : validCreds cfg with
  | false =>
      have hst : (FI.configure cfg s).2.1 =
          (if s.is_configured then FI.shutdown s else (s, [])).1 := by
        simp [FI.configure, hv]
      rw [hst]
      cases h : s.is_configured with
      | true =>
          simp only [h, if_pos]
          exact FI_Inv_shutdown s hInv
      | false =>
          simpa using hInv
  | true =>
      obtain ⟨h1, h2, h3⟩ := FI_configure_ok s cfg hInv hv
      refine ⟨fun h => ?_, fun _ => ⟨h3, h2⟩⟩
      rw [h1] at h
      cases h

theorem FI_Inv_runConfigs (cfgs : List TracerConfig) (s : InstrState)
    (hInv : FI.Inv s) : FI.Inv (FI.runConfigs cfgs s) := by
  induction cfgs generalizing s with
  | nil => simpa [FI.runConfigs] using hInv
  | cons c rest ih =>
      simp only [FI.runConfigs, List.foldl_cons]
      exact ih _ (FI_Inv_configure s c hInv)

theorem FI_configure_reconfig_trace (s : InstrState) (cfg : TracerConfig)
    (hc : s.is_configured = true) (hv : validCreds cfg = true) :
    ∃ tail, (FI.configure cfg s).2.2 = (FI.shutdown s).2 ++ tail ∧
      (∀ n, IEvent.procShutdown n ∉ tail) ∧
      IEvent.exporterNew s.nextId ∈ tail := by
  refine ⟨(if cfg.use_env_headers then [IEvent.envSet otelHeadersKey] else []) ++
    [IEvent.exporterNew s.nextId, IEvent.processorNew (s.nextId + 1),
     IEvent.providerNew (s.nextId + 2), IEvent.instrument (s.nextId + 3)],
    ?_, ?_, ?_⟩
  · cases hu : cfg.use_env_headers <;>
      simp [FI.configure, hc, hv, hu, FI_shutdown_nextId]
  · intro n
    cases hu : cfg.use_env_headers <;> simp [hu]
  · cases hu : cfg.use_env_headers <;> simp [hu]

theorem FI_shutdown_count (s : InstrState) (prid : Nat)
    (hc : s.is_configured = true) (hproc : s.span_processors = [prid]) :
    ((FI.shutdown s).2.count (IEvent.procShutdown prid)) = 1 := by
  obtain ⟨tp, sps, li, ic, evk, env, nid⟩ := s
  simp only at hc hproc
  subst hc
  subst hproc
  cases li <;> cases evk <;>
    simp [FI.shutdown, List.count_append, List.count_cons] <;>
    split_ifs <;>
    simp [List.count_cons]

theorem optmin_fold_go (g : String → Option FileInfo) (l : List String) (a : Nat) :
    l.foldl (fun acc f =>
      match g f with
      | some info =>
          match acc with
          | none => some info.mtime
          | some t => if info.mtime < t then some info.mtime else some t
      | none => acc) (some a) =
      some ((l.filterMap fun f => (g f).map FileInfo.mtime).foldl min a) := by
  induction l generalizing a with
  | nil => rfl
  | cons hd tl ih =>
      cases hg : g hd with
      | none =>
          simp only [List.foldl_cons, List.filterMap_cons, hg]
          exact ih a
      | some info =>
          simp only [List.foldl_cons, List.filterMap_cons, hg, Option.map_some']
          have hm : (if info.mtime < a then some info.mtime else some a) =
              some (min a info.mtime) := by
            split_ifs with h
            · congr 1
              omega
            · congr 1
              omega
          rw [hm, ih (min a info.mtime)]

theorem oldest_index_time_eq_min (fs : FS) :
    oldest_index_time fs = (indexMtimes fs).min? := by
  unfold oldest_index_time indexMtimes
  generalize required_files = l
  induction l with
  | nil => rfl
  | cons hd tl ih =>
      cases hg : fs.storageFile hd with
      | none =>
          simp only [List.foldl_cons, List.filterMap_cons, hg]
          exact ih
      | some info =>
          simp only [List.foldl_cons, List.filterMap_cons, hg, Option.map_some']
          rw [optmin_fold_go]
          rfl

theorem invalid_any_eq (fs : FS) :
    (!index_exists_and_valid fs) =
      (!fs.storageDirExists || required_files.any fun f =>
        match fs.storageFile f with
        | none => true
        | some info => info.size == 0) := by
  unfold index_exists_and_valid
  rw [Bool.not_and]
  congr 1
  generalize required_files = l
  induction l with
  | nil => rfl
  | cons hd tl ih =>
      simp only [List.all_cons, List.any_cons, Bool.not_and]
      rw [← ih]
      congr 1
      cases fs.storageFile hd with
      | none => rfl
      | some info => simp [bne]

theorem any_pdf_eq (fs : FS) (t : Nat) :
    ((get_pdf_files fs).any fun p =>
      match fs.dataFile p with
      | some info => decide (t < info.mtime)
      | none => false) =
    ((sourceMtimes fs).any fun m => decide (t < m)) := by
  unfold get_pdf_files sourceMtimes
  generalize pdf_filenames = l
  induction l with
  | nil => rfl
  | cons hd tl ih =>
      cases hg : fs.dataFile hd with
      | none =>
          simp only [List.filter_cons, List.filterMap_cons, hg, Option.isSome_none,
            Bool.false_eq_true, if_false, Option.map_none']
          exact ih
      | some info =>
          simp only [List.filter_cons, List.filterMap_cons, hg, Option.isSome_some,
            if_true, List.any_cons, Option.map_some']
          rw [← ih]

theorem should_rebuild_eq_spec (fs : FS) (force : Bool) :
    should_rebuild_index fs force = rebuildDecisionSpec fs force := by
  unfold should_rebuild_index rebuildDecisionSpec
  cases force with
  | true => rfl
  | false =>
      simp only [Bool.false_eq_true, if_false]
      rw [← invalid_any_eq fs]
      cases hvv : (!index_exists_and_valid fs) with
      | true => simp only [hvv, if_true]
      | false =>
          simp only [hvv, Bool.false_eq_true, if_false]
          rw [oldest_index_time_eq_min]
          cases hm : (indexMtimes fs).min? with
          | none => rfl
          | some t => exact any_pdf_eq fs t

/-! # Claim theorems -/

/-- C1: for every override map (distinct keys, as a Python dict) and every
body — whether the body returns normally or raises — after
`EnvironmentManager.temporary_env_vars` completes, each overridden key's
ambient environment value equals its pre-call value (restored, or removed if
previously absent). -/
theorem C1_scoped_env_restores (ov : List (String × Option String))
    (body : Env → Env × Except ε α) (e : Env) (k v : String)
    (hnd : (ov.map Prod.fst).Nodup) (hmem : (k, some v) ∈ ov) :
    (temporary_env_vars ov body e).1 k = e k := by
  have hne : ov.isEmpty = false := by
    cases ov with
    | nil => cases hmem
    | cons a t => rfl
  simp only [temporary_env_vars, hne, Bool.false_eq_true, if_false]
  exact restore_setOverrides_eq ov hnd k v hmem e (body (setOverrides ov e).1).1

/-- Witness for C1: the key is unset beforehand and the body raises; the key
is unset afterwards. -/
theorem C1_scoped_env_restores_witness :
    (temporary_env_vars [("K", some "v")]
        (fun e => (Env.set e "J" "x", (Except.error () : Except Unit Unit)))
        (fun _ => none)).1 "K" = (none : Option String) :=
  C1_scoped_env_restores [("K", some "v")]
    (fun e => (Env.set e "J" "x", (Except.error () : Except Unit Unit)))
    (fun _ => none) "K" "v" (by decide) (by decide)

/-- C3: `_generate_cache_key` is a pure function returning the reserved
constant `"default"` for a `None` or empty override map; permutations of the
same key/value pairs yield equal fingerprints (canonical sorted serialization
then SHA-256); and non-empty maps yield fingerprints of fixed length 16. -/
theorem C3_fingerprint_canonical :
    generate_cache_key none = "default" ∧
    generate_cache_key (some []) = "default" ∧
    (∀ A B : List (String × String), A.Perm B →
      generate_cache_key (some A) = generate_cache_key (some B)) ∧
    (∀ A : List (String × String), A ≠ [] →
      (generate_cache_key (some A)).length = 16) := by
  refine ⟨rfl, rfl, ?_, ?_⟩
  · intro A B h
    by_cases hA : A = []
    · subst hA
      rw [List.Perm.eq_nil h.symm]
    · have hB : B ≠ [] := fun hb => hA (List.Perm.eq_nil (hb ▸ h))
      simp only [generate_cache_key]
      rw [if_neg (by simpa [List.isEmpty_iff] using hA),
        if_neg (by simpa [List.isEmpty_iff] using hB),
        sortedItems_perm_eq A B h]
  · intro A hA
    simp only [generate_cache_key]
    rw [if_neg (by simpa [List.isEmpty_iff] using hA)]
    have h64 : (sha256hexChars
        (utf8Bytes (jsonDumpsPairs (sortedItems A)))).length = 64 :=
      sha256hexChars_length _
    have hmk : ∀ cs : List Char, (String.mk cs).length = cs.length := fun _ => rfl
    rw [hmk, List.length_take, h64]
    decide

/-- Witness for C3: two permutations of the same pairs share a fingerprint,
and a concrete non-empty map has a 16-character fingerprint. -/
theorem C3_fingerprint_canonical_witness :
    generate_cache_key (some [("a", "1"), ("b", "2")]) =
        generate_cache_key (some [("b", "2"), ("a", "1")]) ∧
    (generate_cache_key (some [("a", "1")])).length = 16 :=
  ⟨C3_fingerprint_canonical.2.2.1 _ _ (by decide),
   C3_fingerprint_canonical.2.2.2 _ (by decide)⟩

/-- C2: starting from a cache with no entry for the overrides' key, the first
`get_or_build` call (`init_app`) invokes the builder once; a second call with
the same overrides within the TTL is a cache hit returning the same bundle
with no further builder invocation; a second call at or after the TTL first
evicts the expired entry on lookup and then invokes the builder again. -/
theorem C2_get_or_build_ttl {α : Type} (s0 : SessionState α) (c0 : Nat)
    (ov : Option (List (String × String))) (bf : Nat → α) (t1 t2 : Nat)
    (hmiss : s0.cache (generate_cache_key ov) = none) (httl : 0 < s0.ttl) :
    (init_app s0 c0 ov (fun n => Except.ok (bf n)) t1 =
        (Except.ok (bf c0), cache_components s0 ov (bf c0) t1, c0 + 1)) ∧
    (t2 - t1 < s0.ttl →
      init_app (cache_components s0 ov (bf c0) t1) (c0 + 1) ov
          (fun n => Except.ok (bf n)) t2 =
        (Except.ok (bf c0), cache_components s0 ov (bf c0) t1, c0 + 1)) ∧
    (s0.ttl ≤ t2 - t1 →
      (get_cached_components (cache_components s0 ov (bf c0) t1) ov t2).1 = none ∧
      (get_cached_components (cache_components s0 ov (bf c0) t1) ov t2).2.cache
          (generate_cache_key ov) = none ∧
      (init_app (cache_components s0 ov (bf c0) t1) (c0 + 1) ov
          (fun n => Except.ok (bf n)) t2).1 = Except.ok (bf (c0 + 1)) ∧
      (init_app (cache_components s0 ov (bf c0) t1) (c0 + 1) ov
          (fun n => Except.ok (bf n)) t2).2.2 = c0 + 2) := by
  have hs1key : (cache_components s0 ov (bf c0) t1).cache (generate_cache_key ov) =
      some (bf c0, t1) := cache_components_cache_key s0 ov (bf c0) t1 httl
  have hs1ttl : (cache_components s0 ov (bf c0) t1).ttl = s0.ttl := rfl
  refine ⟨?_, ?_, ?_⟩
  · exact init_app_miss_ok s0 c0 ov _ t1 (bf c0) hmiss rfl
  · intro hf
    exact init_app_hit _ (c0 + 1) ov _ t2 (bf c0) t1 hs1key (by rw [hs1ttl]; exact hf)
  · intro hexp
    have hget := get_cached_expired_eq _ ov t2 (bf c0) t1 hs1key (by rw [hs1ttl]; exact hexp)
    refine ⟨by rw [hget], by rw [hget]; simp, ?_, ?_⟩
    · simp only [init_app, hget]
    · simp only [init_app, hget]

/-- Witness for C2: a hit within the TTL returns the cached bundle without a
second build, and an expired lookup evicts before rebuilding. -/
theorem C2_get_or_build_ttl_witness :
    (init_app (cache_components (SessionState.mk (fun _ => none) 30)
          none 7 0) 1 none (fun n => Except.ok ((fun _ => (7 : Nat)) n)) 10 =
      (Except.ok 7, cache_components (SessionState.mk (fun _ => none) 30) none 7 0, 1)) :=
  ((C2_get_or_build_ttl (SessionState.mk (fun _ => none) 30) 0 none
      (fun _ => (7 : Nat)) 0 10 rfl (by decide)).2.1 (by decide))

/-- C7: when the builder invoked on a cache miss fails, the failure propagates
to the caller as `HTTPException(500, ...)` and the cache is left without any
entry for that fingerprint: on a genuine miss the state is returned entirely
unchanged, and when an expired entry was evicted on lookup the key maps to
nothing afterwards — failed builds are never stored. -/
theorem C7_failed_build_not_cached {α : Type} (s : SessionState α) (c : Nat)
    (ov : Option (List (String × String))) (builder : Nat → Except String α)
    (now : Nat) (msg : String)
    (hb : builder c = Except.error msg) :
    (s.cache (generate_cache_key ov) = none →
      init_app s c ov builder now =
        (Except.error ⟨500, "Initialization failed: " ++ msg⟩, s, c + 1)) ∧
    (∀ (comps : α) (ts : Nat),
      s.cache (generate_cache_key ov) = some (comps, ts) →
      s.ttl ≤ now - ts →
      (init_app s c ov builder now).1 =
        Except.error ⟨500, "Initialization failed: " ++ msg⟩ ∧
      (init_app s c ov builder now).2.1.cache (generate_cache_key ov) = none) := by
  constructor
  · intro hmiss
    simp only [init_app, get_cached_miss s ov now hmiss, hb]
  · intro comps ts hsome hexp
    have hget := get_cached_expired_eq s ov now comps ts hsome hexp
    constructor
    · simp only [init_app, hget, hb]
    · simp only [init_app, hget, hb]
      simp

/-- Witness for C7: a failing builder on a miss leaves the cache untouched and
surfaces `HTTPException(500, ...)`. -/
theorem C7_failed_build_not_cached_witness :
    init_app (SessionState.mk (fun _ => (none : Option (Nat × Nat))) 30) 0 none
        (fun _ => Except.error "boom") 5 =
      (Except.error ⟨500, "Initialization failed: " ++ "boom"⟩,
        SessionState.mk (fun _ => none) 30, 1) :=
  (C7_failed_build_not_cached (SessionState.mk (fun _ => none) 30) 0 none
      (fun _ => Except.error "boom") 5 "boom" rfl).1 rfl

/-- C4: the telemetry manager keeps at most one active pipeline: the
structural invariant is preserved by any sequence of `configure` calls; a
`configure` with valid credentials leaves exactly one active pipeline; and a
second `configure` while configured emits the full teardown of the first
pipeline — its span processor shut down exactly once — strictly before the
second pipeline's exporter construction. -/
theorem C4_single_active_pipeline :
    (∀ (cfgs : List TracerConfig) (s : InstrState), FI.Inv s →
        FI.Inv (FI.runConfigs cfgs s)) ∧
    (∀ (s : InstrState) (cfg : TracerConfig), FI.Inv s →
        validCreds cfg = true →
        (FI.configure cfg s).2.1.is_configured = true ∧
        (FI.configure cfg s).2.1.span_processors.length = 1 ∧
        (FI.configure cfg s).2.1.tracer_provider.isSome = true) ∧
    (∀ (s : InstrState) (c1 c2 : TracerConfig), FI.Inv s →
        s.is_configured = false → validCreds c1 = true → validCreds c2 = true →
        (FI.configure c1 s).2.1.span_processors = [s.nextId + 1] ∧
        ((FI.shutdown (FI.configure c1 s).2.1).2.count
            (IEvent.procShutdown (s.nextId + 1))) = 1 ∧
        ∃ tail, (FI.configure c2 (FI.configure c1 s).2.1).2.2 =
            (FI.shutdown (FI.configure c1 s).2.1).2 ++ tail ∧
          (∀ n, IEvent.procShutdown n ∉ tail) ∧
          IEvent.exporterNew (FI.configure c1 s).2.1.nextId ∈ tail) := by
  refine ⟨FI_Inv_runConfigs, FI_configure_ok, ?_⟩
  intro s c1 c2 hInv hc0 hv1 hv2
  have hproc0 : s.span_processors = [] := (hInv.1 hc0).2.1
  have hs1proc : (FI.configure c1 s).2.1.span_processors = [s.nextId + 1] := by
    simp [FI.configure, hc0, hv1, hproc0]
  have hs1conf : (FI.configure c1 s).2.1.is_configured = true :=
    (FI_configure_ok s c1 hInv hv1).1
  refine ⟨hs1proc, FI_shutdown_count _ _ hs1conf hs1proc, ?_⟩
  exact FI_configure_reconfig_trace _ c2 hs1conf hv2

/-- Witness for C4: a fresh manager configured twice with valid configs ends
with exactly one pipeline. -/
theorem C4_single_active_pipeline_witness :
    (FI.configure (TracerConfig.mk (some "sid") (some "key") "m" "ep" [] false)
        (FI.init (fun _ => none))).2.1.is_configured = true ∧
    (FI.configure (TracerConfig.mk (some "sid") (some "key") "m" "ep" [] false)
        (FI.init (fun _ => none))).2.1.span_processors.length = 1 ∧
    (FI.configure (TracerConfig.mk (some "sid") (some "key") "m" "ep" [] false)
        (FI.init (fun _ => none))).2.1.tracer_provider.isSome = true :=
  C4_single_active_pipeline.2.1 (FI.init (fun _ => none))
    (TracerConfig.mk (some "sid") (some "key") "m" "ep" [] false)
    (FI_Inv_init (fun _ => none)) rfl

/-- C8: on every exit path of `temporary_config` — body returning normally,
body raising, or `configure` itself raising — `shutdown()` has run, leaving
the manager unconfigured with no provider and no processors; the prior
configuration is not restored, and when a configuration was active before
entry the reconfiguration warning is logged. -/
theorem C8_temporary_config_always_shutdown {ε α : Type} (cfg : TracerConfig)
    (body : Nat → Except ε α) (s : InstrState) (hInv : FI.Inv s) :
    (FI.temporary_config cfg body s).2.1.is_configured = false ∧
    (FI.temporary_config cfg body s).2.1.tracer_provider = none ∧
    (FI.temporary_config cfg body s).2.1.span_processors = [] ∧
    (s.is_configured = true → s.tracer_provider.isSome = true →
      IEvent.warnReconfigure ∈ (FI.temporary_config cfg body s).2.2) := by
  have hInv1 : FI.Inv (FI.configure cfg s).2.1 := FI_Inv_configure s cfg hInv
  obtain ⟨h1, h2, h3, -, -⟩ := FI_shutdown_clears _ hInv1
  have hstate : (FI.temporary_config cfg body s).2.1 =
      (FI.shutdown (FI.configure cfg s).2.1).1 := by
    simp only [FI.temporary_config]
    cases (FI.configure cfg s).1 with
    | error msg => rfl
    | ok pv => cases body pv <;> rfl
  have hev : (FI.temporary_config cfg body s).2.2 =
      (FI.configure cfg s).2.2 ++ (FI.shutdown (FI.configure cfg s).2.1).2 ++
        (if s.is_configured && s.tracer_provider.isSome
          then [IEvent.warnReconfigure] else []) := by
    simp only [FI.temporary_config]
    cases (FI.configure cfg s).1 with
    | error msg => rfl
    | ok pv => cases body pv <;> rfl
  refine ⟨hstate ▸ h1, hstate ▸ h2, hstate ▸ h3, fun hw hp => ?_⟩
  rw [hev, hw, hp]
  simp

/-- Witness for C8: a configured manager entering `temporary_config` with a
raising body ends unconfigured and the warning is logged. -/
theorem C8_temporary_config_always_shutdown_witness :
    (FI.temporary_config (TracerConfig.mk (some "s2") (some "k2") "m" "ep" [] false)
        (fun _ => (Except.error () : Except Unit Nat))
        (FI.configure (TracerConfig.mk (some "sid") (some "key") "m" "ep" [] true)
          (FI.init (fun _ => none))).2.1).2.1.is_configured = false ∧
    (FI.temporary_config (TracerConfig.mk (some "s2") (some "k2") "m" "ep" [] false)
        (fun _ => (Except.error () : Except Unit Nat))
        (FI.configure (TracerConfig.mk (some "sid") (some "key") "m" "ep" [] true)
          (FI.init (fun _ => none))).2.1).2.1.tracer_provider = none ∧
    (FI.temporary_config (TracerConfig.mk (some "s2") (some "k2") "m" "ep" [] false)
        (fun _ => (Except.error () : Except Unit Nat))
        (FI.configure (TracerConfig.mk (some "sid") (some "key") "m" "ep" [] true)
          (FI.init (fun _ => none))).2.1).2.1.span_processors = [] ∧
    ((FI.configure (TracerConfig.mk (some "sid") (some "key") "m" "ep" [] true)
          (FI.init (fun _ => none))).2.1.is_configured = true →
      (FI.configure (TracerConfig.mk (some "sid") (some "key") "m" "ep" [] true)
          (FI.init (fun _ => none))).2.1.tracer_provider.isSome = true →
      IEvent.warnReconfigure ∈
        (FI.temporary_config (TracerConfig.mk (some "s2") (some "k2") "m" "ep" [] false)
          (fun _ => (Except.error () : Except Unit Nat))
          (FI.configure (TracerConfig.mk (some "sid") (some "key") "m" "ep" [] true)
            (FI.init (fun _ => none))).2.1).2.2) :=
  C8_temporary_config_always_shutdown
    (TracerConfig.mk (some "s2") (some "k2") "m" "ep" [] false)
    (fun _ => (Except.error () : Except Unit Nat))
    (FI.configure (TracerConfig.mk (some "sid") (some "key") "m" "ep" [] true)
      (FI.init (fun _ => none))).2.1
    (FI_Inv_configure (FI.init (fun _ => none))
      (TracerConfig.mk (some "sid") (some "key") "m" "ep" [] true)
      (FI_Inv_init (fun _ => none)))

/-- C10: `configure` called while a pipeline is active with a config whose
credentials are missing first executes the full teardown of the existing
pipeline and only then raises the credentials `ValueError`: after the failed
call the manager is unconfigured and the prior pipeline is gone. -/
theorem C10_invalid_config_tears_down (s : InstrState) (cfg : TracerConfig)
    (hInv : FI.Inv s) (hc : s.is_configured = true)
    (hv : validCreds cfg = false) :
    (FI.configure cfg s).1 = Except.error
      "ARIZE_SPACE_ID and ARIZE_API_KEY must be provided in configuration." ∧
    (FI.configure cfg s).2.1 = (FI.shutdown s).1 ∧
    (FI.configure cfg s).2.1.is_configured = false ∧
    (FI.configure cfg s).2.1.tracer_provider = none ∧
    (FI.configure cfg s).2.1.span_processors = [] ∧
    (FI.configure cfg s).2.2 = (FI.shutdown s).2 ∧
    (∀ p ∈ s.span_processors,
      IEvent.procShutdown p ∈ (FI.configure cfg s).2.2) := by
  have hres : FI.configure cfg s = (Except.error
      "ARIZE_SPACE_ID and ARIZE_API_KEY must be provided in configuration.",
      (FI.shutdown s).1, (FI.shutdown s).2) := by
    simp [FI.configure, hc, hv]
  obtain ⟨h1, h2, h3, -, -⟩ := FI_shutdown_clears s (by exact hInv)
  refine ⟨by rw [hres], by rw [hres], by rw [hres]; exact h1,
    by rw [hres]; exact h2, by rw [hres]; exact h3, by rw [hres], ?_⟩
  intro p hp
  rw [hres]
  simp only [FI.shutdown, hc, if_pos, List.mem_append]
  exact Or.inl (Or.inr (List.mem_map_of_mem IEvent.procShutdown hp))

/-- Witness for C10: a configured manager given a credential-less config ends
unconfigured with the `ValueError` message surfaced. -/
theorem C10_invalid_config_tears_down_witness :
    (FI.configure (TracerConfig.mk none (some "k") "m" "ep" [] false)
        (FI.configure (TracerConfig.mk (some "sid") (some "key") "m" "ep" [] false)
          (FI.init (fun _ => none))).2.1).1 = Except.error
      "ARIZE_SPACE_ID and ARIZE_API_KEY must be provided in configuration." ∧
    (FI.configure (TracerConfig.mk none (some "k") "m" "ep" [] false)
        (FI.configure (TracerConfig.mk (some "sid") (some "key") "m" "ep" [] false)
          (FI.init (fun _ => none))).2.1).2.1.is_configured = false :=
  have h := C10_invalid_config_tears_down
    (FI.configure (TracerConfig.mk (some "sid") (some "key") "m" "ep" [] false)
      (FI.init (fun _ => none))).2.1
    (TracerConfig.mk none (some "k") "m" "ep" [] false)
    (FI_Inv_configure (FI.init (fun _ => none))
      (TracerConfig.mk (some "sid") (some "key") "m" "ep" [] false)
      (FI_Inv_init (fun _ => none)))
    rfl rfl
  ⟨h.1, h.2.2.1⟩

/-- C5: the rebuild decision equals the specification's ordered decision —
(1) force rebuild, (2) missing/incomplete/zero-size persisted index, (3) some
source document strictly newer than the oldest required index file, (4)
otherwise load — and for a valid, non-stale, non-forced persisted index no
rebuild occurs: the persisted index is loaded. -/
theorem C5_rebuild_decision_order :
    (∀ (fs : FS) (force : Bool),
        should_rebuild_index fs force = rebuildDecisionSpec fs force) ∧
    (∀ (ι : Type) (fs : FS) (i c : ι),
        rebuildDecisionSpec fs false = false →
        load_or_create_index fs false (Except.ok i) c = LoadOutcome.loaded i) := by
  refine ⟨should_rebuild_eq_spec, ?_⟩
  intro ι fs i c h
  unfold load_or_create_index
  rw [should_rebuild_eq_spec, h]
  rfl

/-- Witness for C5: a valid, fresh persisted index with older source PDFs is
loaded, not rebuilt. -/
theorem C5_rebuild_decision_order_witness :
    load_or_create_index
        (FS.mk true (fun _ => some (FileInfo.mk 1 10)) (fun _ => some (FileInfo.mk 1 5)))
        false (Except.ok (0 : Nat)) 7 = LoadOutcome.loaded 0 :=
  C5_rebuild_decision_order.2 Nat
    (FS.mk true (fun _ => some (FileInfo.mk 1 10)) (fun _ => some (FileInfo.mk 1 5)))
    0 7 (by decide)

/-- C6 as stated is false: on a rebuild with existing persisted files present,
`_create_new_index` emits no clearing of the persisted files (the event
`IdxEvent.clearFiles` never occurs in its trace). -/
theorem C6_counterexample :
    ((FS.mk true (fun _ => some (FileInfo.mk 5 10))
        (fun _ => some (FileInfo.mk 3 7))).storageFile "docstore.json").isSome = true ∧
    IdxEvent.clearFiles ∉
      (create_new_index (FS.mk true (fun _ => some (FileInfo.mk 5 10))
          (fun _ => some (FileInfo.mk 3 7)))
        (Except.ok (0 : Nat))).2.2 := by
  constructor
  · rfl
  · decide

/-- C6 (amended): the rebuild path ensures the storage directory exists
(creating it when absent) but never clears existing persisted files; it fails
with `ValueError` when no source PDF exists, without building or persisting;
a failed in-memory build propagates without persisting; and on success the
trace is exactly directory creation (when needed), document read, in-memory
build, then persist — persistence strictly after construction and before
return. -/
theorem C6_rebuild_path (ι : Type) (fs : FS) (build : Except String ι) :
    (IdxEvent.clearFiles ∉ (create_new_index fs build).2.2) ∧
    ((get_pdf_files fs).isEmpty = true →
      (create_new_index fs build).1 = Except.error "No PDF files found to index" ∧
      IdxEvent.buildIndex ∉ (create_new_index fs build).2.2 ∧
      IdxEvent.persist ∉ (create_new_index fs build).2.2) ∧
    (∀ e, build = Except.error e → (get_pdf_files fs).isEmpty = false →
      (create_new_index fs build).1 = Except.error e ∧
      IdxEvent.persist ∉ (create_new_index fs build).2.2) ∧
    (∀ i, build = Except.ok i → (get_pdf_files fs).isEmpty = false →
      (create_new_index fs build).1 = Except.ok i ∧
      (create_new_index fs build).2.2 =
        (if fs.storageDirExists then [] else [IdxEvent.mkdirStorage]) ++
          [IdxEvent.readDocs (get_pdf_files fs), IdxEvent.buildIndex,
            IdxEvent.persist]) := by
  have hpdf1 : get_pdf_files { fs with storageDirExists := true } = get_pdf_files fs := rfl
  refine ⟨?_, ?_, ?_, ?_⟩
  · cases hdir : fs.storageDirExists <;>
      cases hemp : (get_pdf_files fs).isEmpty <;>
      cases build <;>
      simp [create_new_index, hdir, hemp, hpdf1]
  · intro hemp
    cases hdir : fs.storageDirExists <;>
      cases build <;>
      simp [create_new_index, hdir, hemp, hpdf1]
  · intro e hb hemp
    subst hb
    cases hdir : fs.storageDirExists <;>
      simp [create_new_index, hdir, hemp, hpdf1]
  · intro i hb hemp
    subst hb
    cases hdir : fs.storageDirExists <;>
      simp [create_new_index, hdir, hemp, hpdf1]

/-- Witness for C6 (amended): with the storage directory present, sources
available and a successful build, the trace is read, build, persist. -/
theorem C6_rebuild_path_witness :
    (create_new_index (FS.mk true (fun _ => some (FileInfo.mk 5 10))
        (fun _ => some (FileInfo.mk 3 7))) (Except.ok (0 : Nat))).1 =
      Except.ok 0 ∧
    (create_new_index (FS.mk true (fun _ => some (FileInfo.mk 5 10))
        (fun _ => some (FileInfo.mk 3 7))) (Except.ok (0 : Nat))).2.2 =
      (if (FS.mk true (fun _ => some (FileInfo.mk 5 10))
          (fun _ => some (FileInfo.mk 3 7))).storageDirExists then []
        else [IdxEvent.mkdirStorage]) ++
        [IdxEvent.readDocs (get_pdf_files (FS.mk true
          (fun _ => some (FileInfo.mk 5 10)) (fun _ => some (FileInfo.mk 3 7)))),
          IdxEvent.buildIndex, IdxEvent.persist] :=
  (C6_rebuild_path Nat
      (FS.mk true (fun _ => some (FileInfo.mk 5 10)) (fun _ => some (FileInfo.mk 3 7)))
      (Except.ok 0)).2.2.2 0 rfl (by decide)

/-- C9: `validate_env_overrides` keeps exactly the pairs whose key is in the
allow-list and whose value is non-null and not empty/whitespace (membership
characterization), and the environment-set phase driven by the validated
overrides never touches a key outside the allow-list. -/
theorem C9_validate_filters :
    (∀ (ov : List (String × Option String)) (k s : String),
        (k, s) ∈ (validate_env_overrides ov).getD [] ↔
          ((k, some s) ∈ ov ∧ k ∈ allowed_vars ∧ stripEmpty s = false)) ∧
    (∀ (ov : List (String × Option String)) (e : Env) (k : String),
        k ∉ allowed_vars → (setOverrides (validatedForScope ov) e).1 k = e k) := by
  refine ⟨mem_validate_iff, ?_⟩
  intro ov e k hk
  apply setOverrides_env_not_mem
  intro hmemk
  rcases List.mem_map.mp hmemk with ⟨q, hq, hqk⟩
  rcases List.mem_map.mp hq with ⟨p, hp, hpq⟩
  have hkeq : p.1 = k := by rw [← hqk, ← hpq]
  have := (mem_validate_iff ov p.1 p.2).mp (by simpa using hp)
  exact hk (hkeq ▸ this.2.1)

/-- Witness for C9: an allow-listed, non-blank pair survives validation while
a non-allow-listed key is never set by the scoped-environment set phase. -/
theorem C9_validate_filters_witness :
    (("ARIZE_MODEL_ID", "m") ∈
        (validate_env_overrides
          [("FOO", some "x"), ("ARIZE_API_KEY", some " "),
            ("ARIZE_MODEL_ID", some "m")]).getD []) ∧
    (setOverrides
        (validatedForScope [("FOO", some "x"), ("ARIZE_MODEL_ID", some "m")])
        (fun _ => none)).1 "FOO" = (none : Option String) :=
  ⟨(C9_validate_filters.1 _ "ARIZE_MODEL_ID" "m").mpr (by decide),
   C9_validate_filters.2 _ (fun _ => none) "FOO" (by decide)⟩

end SampleApps
